import Mathlib

/-!
Shallow embedding of the candidate scoring/selection engine, temporal state
update and serial-link wrapper of `src/maixcam/maixcam.py`.

Numeric model: the Python code mixes ints and floats; both are modelled as ℚ.
Python truthiness of a number (`if last_cx or last_cy`, `if EDGE_MARGIN`,
`if cx and cy and out_valid`) is modelled as being nonzero.
Python `ZeroDivisionError` (from `w / h` and `area / (w * h)`) and the
`raise Exception("edge")` are modelled by an `Except Unit` result of the
per-candidate tier-gate section, caught by the per-blob handler exactly as the
`try/except: continue` of the source does.
-/

namespace Maixcam

/-- A blob descriptor as consumed by the core: `b.area()`, the `w, h` of
`b.rect()` (the source discards the box corner `_, _, w, h = b.rect()`),
and the centroid `b.cx(), b.cy()`. -/
structure Blob where
  area : ℚ
  w : ℚ
  h : ℚ
  cx : ℚ
  cy : ℚ
deriving DecidableEq

/-- The tunable constants of the filter (module-level constants in the
source; `maxWFrac`/`maxHFrac` are MAX_W_RATIO/MAX_H_RATIO there). -/
structure Config where
  maxArea : ℚ
  minW : ℚ
  minH : ℚ
  maxWFrac : ℚ
  maxHFrac : ℚ
  minAspect : ℚ
  maxAspect : ℚ
  minDensity : ℚ
  maxDensity : ℚ
  relaxMaxDensity : ℚ
  centerWeight : ℚ
  trackWeight : ℚ
  edgeMargin : ℚ
deriving DecidableEq

/-- The constant values of `src/maixcam/maixcam.py` lines 20-34. -/
def defaultConfig : Config :=
  { maxArea := 15000
    minW := 25
    minH := 10
    maxWFrac := 85/100
    maxHFrac := 85/100
    minAspect := 3/10
    maxAspect := 35/10
    minDensity := 1/100
    maxDensity := 45/100
    relaxMaxDensity := 95/100
    centerWeight := 4/10
    trackWeight := 12/10
    edgeMargin := 0 }

/-- The score of lines 79-86: area minus the center-distance penalty, minus
the continuity penalty when the prior centroid is truthy
(`if last_cx or last_cy`). -/
def score (cfg : Config) (imgW imgH lastCx lastCy : ℚ) (b : Blob) : ℚ :=
  let dx0 := b.cx - imgW / 2
  let dy0 := b.cy - imgH / 2
  let s := b.area - cfg.centerWeight * (dx0 * dx0 + dy0 * dy0)
  if lastCx ≠ 0 ∨ lastCy ≠ 0 then
    s - cfg.trackWeight * ((b.cx - lastCx) * (b.cx - lastCx)
        + (b.cy - lastCy) * (b.cy - lastCy))
  else s

/-- The running-best update pattern `if X is None or score > X_score` of
lines 88-90, 107-109 and 111-113, keeping the candidate with its score. -/
def updateBest (cur : Option (Blob × ℚ)) (b : Blob) (s : ℚ) : Option (Blob × ℚ) :=
  match cur with
  | none => some (b, s)
  | some (bc, cs) => if s > cs then some (b, s) else some (bc, cs)

/-- The per-blob tier bests held across the loop of lines 58-115:
`best` (strict), `relaxed`, `fallback`. -/
structure Tiers where
  best : Option (Blob × ℚ)
  relaxed : Option (Blob × ℚ)
  fallback : Option (Blob × ℚ)
deriving DecidableEq

/-- The strict/relaxed section of the per-blob body, lines 92-113: the part of
the `try` block after the fallback update. `Except.error ()` models the
`ZeroDivisionError` of `w / h` (when `h = 0`) and of `area / (w * h)` (when
`w * h = 0`), and the `raise Exception("edge")` of the edge-margin check;
all are caught by the enclosing `except Exception: continue`. -/
def tierGates (cfg : Config) (imgW imgH : ℚ) (b : Blob) (s : ℚ)
    (best relaxed : Option (Blob × ℚ)) :
    Except Unit (Option (Blob × ℚ) × Option (Blob × ℚ)) :=
  if b.h = 0 then Except.error ()
  else
    let aspect := b.w / b.h
    if aspect < cfg.minAspect ∨ aspect > cfg.maxAspect then Except.ok (best, relaxed)
    else if b.w * b.h = 0 then Except.error ()
    else
      let density := b.area / (b.w * b.h)
      if density < cfg.minDensity ∨ density > cfg.relaxMaxDensity then
        Except.ok (best, relaxed)
      else if density ≤ cfg.maxDensity then
        if cfg.edgeMargin ≠ 0 ∧
            (b.cx < cfg.edgeMargin ∨ b.cx > imgW - cfg.edgeMargin
              ∨ b.cy < cfg.edgeMargin ∨ b.cy > imgH - cfg.edgeMargin) then
          Except.error ()
        else
          Except.ok (updateBest best b s, updateBest relaxed b s)
      else
        Except.ok (best, updateBest relaxed b s)

/-- One iteration of the `for b in blobs` loop, lines 65-115: the three
rejection gates (area, minimum size, frame-fraction), then the score, the
unconditional fallback update, then the faultable tier-gate section whose
fault is swallowed by `except Exception: continue`. -/
def stepBlob (cfg : Config) (imgW imgH lastCx lastCy : ℚ) (t : Tiers) (b : Blob) :
    Tiers :=
  if b.area > cfg.maxArea then t
  else if b.w < cfg.minW ∨ b.h < cfg.minH then t
  else if b.w > imgW * cfg.maxWFrac ∨ b.h > imgH * cfg.maxHFrac then t
  else
    let s := score cfg imgW imgH lastCx lastCy b
    let fb := updateBest t.fallback b s
    match tierGates cfg imgW imgH b s t.best t.relaxed with
    | Except.error _ => { best := t.best, relaxed := t.relaxed, fallback := fb }
    | Except.ok (nb, nr) => { best := nb, relaxed := nr, fallback := fb }

/-- The whole candidate loop of lines 58-115 over the blob list of a frame. -/
def evaluate (cfg : Config) (imgW imgH lastCx lastCy : ℚ) (blobs : List Blob) :
    Tiers :=
  blobs.foldl (stepBlob cfg imgW imgH lastCx lastCy) ⟨none, none, none⟩

/-- The 4-tuple returned by `find_white_frame_center`: centroid, blob count,
and the `valid` tier tag (1 = accepted/strict, 3 = relaxed, 4 = fallback,
0 = none, as returned at lines 118, 121, 124, 126). -/
structure DetectionResult where
  cx : ℚ
  cy : ℚ
  blobCnt : ℕ
  valid : ℕ
deriving DecidableEq

/-- Tier tag for a strict-tier (accepted) detection, line 118. -/
def tagAccepted : ℕ := 1

/-- Tier tag for a relaxed-tier detection, line 121. -/
def tagRelaxed : ℕ := 3

/-- Tier tag for a fallback-tier detection, line 124. -/
def tagFallback : ℕ := 4

/-- Tier tag for no detection, lines 51 and 126. -/
def tagNone : ℕ := 0

/-- Lines 44-126 of the source: the early return on an empty blob list, the
candidate loop, and the strict → relaxed → fallback → none resolution. The
blob list stands for what `find_blobs` returned for the frame. -/
def find_white_frame_center (cfg : Config) (imgW imgH lastCx lastCy : ℚ)
    (blobs : List Blob) : DetectionResult :=
  if blobs.isEmpty then ⟨0, 0, 0, tagNone⟩
  else
    let t := evaluate cfg imgW imgH lastCx lastCy blobs
    match t.best with
    | some (b, _) => ⟨b.cx, b.cy, blobs.length, tagAccepted⟩
    | none =>
      match t.relaxed with
      | some (b, _) => ⟨b.cx, b.cy, blobs.length, tagRelaxed⟩
      | none =>
        match t.fallback with
        | some (b, _) => ⟨b.cx, b.cy, blobs.length, tagFallback⟩
        | none => ⟨0, 0, blobs.length, tagNone⟩

/-- Lines 170-176 of the main loop: zero the centroid and tag when the tag is
falsy, then update the stored last centroid when `cx and cy and out_valid`
are all truthy. Returns the new (last_cx, last_cy) pair. -/
def updateLast (r : DetectionResult) (last : ℚ × ℚ) : ℚ × ℚ :=
  let cx := if r.valid = 0 then 0 else r.cx
  let cy := if r.valid = 0 then 0 else r.cy
  let outValid := if r.valid = 0 then 0 else r.valid
  if cx ≠ 0 ∧ cy ≠ 0 ∧ outValid ≠ 0 then (cx, cy) else last

/-- Opening the serial port, lines 36-42: `uart.UART(...)` may raise; the
oracle `openOk` stands for the environment, `fresh` for the handle a
successful open yields. Failure is caught and returns `None`. -/
def init_uart (openOk : Bool) (fresh : ℕ) : Option ℕ :=
  if openOk then some fresh else none

/-- Lines 128-137: with no handle, return `(None, 0)` at once; with a handle,
the write either succeeds (`(serial, 1)`, keeping the handle) or raises (the
oracle `writeOk` is the environment), which is caught and returns `(None, 0)`,
tearing the handle down. The centroid arguments only feed the written line. -/
def send_coord (serial : Option ℕ) (cx cy : ℚ) (writeOk : Bool) :
    Option ℕ × ℕ :=
  match serial with
  | none => (none, 0)
  | some h => if writeOk then (some h, 1) else (none, 0)

/-- Lines 179-183 of the main loop: the link activity of one frame. Returns the
handle carried to the next frame, the `last_tx_ok` flag, and the number of
open attempts made this frame (`if serial is None: serial = init_uart()`). -/
def frameLink (serial : Option ℕ) (cx cy : ℚ) (writeOk openOk : Bool)
    (fresh : ℕ) : Option ℕ × ℕ × ℕ :=
  let r := send_coord serial cx cy writeOk
  match r.1 with
  | none => (init_uart openOk fresh, r.2, 1)
  | some h => (some h, r.2, 0)

/-- The gates of steps 1-3 (lines 66-74): area bound, minimum size,
frame-fraction bound. A blob passing these always reaches the fallback
update. -/
def passGates13 (cfg : Config) (imgW imgH : ℚ) (b : Blob) : Prop :=
  ¬ b.area > cfg.maxArea ∧ ¬ (b.w < cfg.minW ∨ b.h < cfg.minH) ∧
    ¬ (b.w > imgW * cfg.maxWFrac ∨ b.h > imgH * cfg.maxHFrac)

instance (cfg : Config) (imgW imgH : ℚ) (b : Blob) :
    Decidable (passGates13 cfg imgW imgH b) := by
  unfold passGates13; infer_instance

/-- The stored score of a tier best equals the shared score of its blob. -/
def scoredKey (cfg : Config) (imgW imgH lastCx lastCy : ℚ)
    (o : Option (Blob × ℚ)) : Prop :=
  ∀ b s, o = some (b, s) → s = score cfg imgW imgH lastCx lastCy b

/-- The scenario blob of spec section 8: area 500, box 30 × 15, so density
500/450 exceeds the relaxed bound and only the fallback tier accepts it. -/
def blobFallback : Blob := ⟨500, 30, 15, 50, 50⟩

/-- The default constants with a positive edge margin enabled. -/
def cfgEdge : Config := { defaultConfig with edgeMargin := 5 }

/-- A strict-quality blob (aspect 2, density 0.4) whose centroid x = 3 lies
within the enabled edge margin of 5. -/
def blobEdge : Blob := ⟨2000, 100, 50, 3, 120⟩

/-- The default constants with the minimum height lowered to 0, letting a
zero-height blob through the size gate of step 2. -/
def cfgDegenerate : Config := { defaultConfig with minH := 0 }

/-- A zero-height blob: its aspect division `w / h` raises
`ZeroDivisionError` in the source. -/
def blobDegenerate : Blob := ⟨100, 25, 0, 60, 60⟩

/-- A blob rejected by the step-1 area gate under the default constants. -/
def blobHuge : Blob := ⟨20000, 30, 15, 50, 50⟩

/-! Helper lemmas shared by the claim theorems. -/

theorem updateBest_isSome (cur : Option (Blob × ℚ)) (b : Blob) (s : ℚ) :
    (updateBest cur b s).isSome := by
  rcases cur with _ | ⟨bc, cs⟩ <;> simp [updateBest]
  split <;> simp

theorem stepBlob_of_not_pass (cfg : Config) (imgW imgH lastCx lastCy : ℚ)
    (t : Tiers) (b : Blob) (hnp : ¬ passGates13 cfg imgW imgH b) :
    stepBlob cfg imgW imgH lastCx lastCy t b = t := by
  unfold stepBlob
  by_cases h1 : b.area > cfg.maxArea
  · simp [h1]
  · by_cases h2 : b.w < cfg.minW ∨ b.h < cfg.minH
    · simp [h1, h2]
    · by_cases h3 : b.w > imgW * cfg.maxWFrac ∨ b.h > imgH * cfg.maxHFrac
      · simp [h1, h2, h3]
      · exact absurd ⟨h1, h2, h3⟩ hnp

theorem stepBlob_of_pass (cfg : Config) (imgW imgH lastCx lastCy : ℚ)
    (t : Tiers) (b : Blob) (hp : passGates13 cfg imgW imgH b) :
    stepBlob cfg imgW imgH lastCx lastCy t b =
      match tierGates cfg imgW imgH b (score cfg imgW imgH lastCx lastCy b)
          t.best t.relaxed with
      | Except.error _ =>
        { best := t.best, relaxed := t.relaxed,
          fallback := updateBest t.fallback b
            (score cfg imgW imgH lastCx lastCy b) }
      | Except.ok (nb, nr) =>
        { best := nb, relaxed := nr,
          fallback := updateBest t.fallback b
            (score cfg imgW imgH lastCx lastCy b) } := by
  obtain ⟨h1, h2, h3⟩ := hp
  unfold stepBlob
  simp [h1, h2, h3]

theorem stepBlob_fallback_isSome (cfg : Config) (imgW imgH lastCx lastCy : ℚ)
    (t : Tiers) (b : Blob) (h : t.fallback.isSome) :
    (stepBlob cfg imgW imgH lastCx lastCy t b).fallback.isSome := by
  by_cases hp : passGates13 cfg imgW imgH b
  · rw [stepBlob_of_pass cfg imgW imgH lastCx lastCy t b hp]
    rcases htg : tierGates cfg imgW imgH b
        (score cfg imgW imgH lastCx lastCy b) t.best t.relaxed with e | ⟨nb, nr⟩
    · simpa using updateBest_isSome t.fallback b _
    · simpa using updateBest_isSome t.fallback b _
  · rw [stepBlob_of_not_pass cfg imgW imgH lastCx lastCy t b hp]
    exact h

theorem stepBlob_pass_fallback_isSome (cfg : Config)
    (imgW imgH lastCx lastCy : ℚ) (t : Tiers) (b : Blob)
    (hp : passGates13 cfg imgW imgH b) :
    (stepBlob cfg imgW imgH lastCx lastCy t b).fallback.isSome := by
  rw [stepBlob_of_pass cfg imgW imgH lastCx lastCy t b hp]
  rcases htg : tierGates cfg imgW imgH b
      (score cfg imgW imgH lastCx lastCy b) t.best t.relaxed with e | ⟨nb, nr⟩
  · simpa using updateBest_isSome t.fallback b _
  · simpa using updateBest_isSome t.fallback b _

theorem foldl_fallback_isSome (cfg : Config) (imgW imgH lastCx lastCy : ℚ)
    (l : List Blob) (t : Tiers) (h : t.fallback.isSome) :
    (List.foldl (stepBlob cfg imgW imgH lastCx lastCy) t l).fallback.isSome := by
  induction l generalizing t with
  | nil => simpa using h
  | cons c cs ih =>
    exact ih _ (stepBlob_fallback_isSome cfg imgW imgH lastCx lastCy t c h)

theorem foldl_mem_fallback_isSome (cfg : Config) (imgW imgH lastCx lastCy : ℚ)
    (l : List Blob) (t : Tiers) (b : Blob) (hmem : b ∈ l)
    (hp : passGates13 cfg imgW imgH b) :
    (List.foldl (stepBlob cfg imgW imgH lastCx lastCy) t l).fallback.isSome := by
  induction l generalizing t with
  | nil => cases hmem
  | cons c cs ih =>
    rcases List.mem_cons.mp hmem with hc | hcs
    · subst hc
      exact foldl_fallback_isSome cfg imgW imgH lastCx lastCy cs _
        (stepBlob_pass_fallback_isSome cfg imgW imgH lastCx lastCy t b hp)
    · exact ih _ hcs

theorem evaluate_all_rejected (cfg : Config) (imgW imgH lastCx lastCy : ℚ)
    (blobs : List Blob) (h : ∀ b ∈ blobs, ¬ passGates13 cfg imgW imgH b) :
    evaluate cfg imgW imgH lastCx lastCy blobs = ⟨none, none, none⟩ := by
  unfold evaluate
  induction blobs with
  | nil => rfl
  | cons c cs ih =>
    rw [List.foldl_cons,
      stepBlob_of_not_pass cfg imgW imgH lastCx lastCy _ c
        (h c (List.mem_cons_self c cs))]
    exact ih fun b hb => h b (List.mem_cons_of_mem c hb)

theorem scoredKey_none (cfg : Config) (imgW imgH lastCx lastCy : ℚ) :
    scoredKey cfg imgW imgH lastCx lastCy none := by
  intro b s hb
  cases hb

theorem scoredKey_updateBest (cfg : Config) (imgW imgH lastCx lastCy : ℚ)
    (o : Option (Blob × ℚ)) (b : Blob)
    (ho : scoredKey cfg imgW imgH lastCx lastCy o) :
    scoredKey cfg imgW imgH lastCx lastCy
      (updateBest o b (score cfg imgW imgH lastCx lastCy b)) := by
  intro bb s hb
  rcases o with _ | ⟨bc, cs⟩
  · simp only [updateBest, Option.some.injEq, Prod.mk.injEq] at hb
    obtain ⟨h1, h2⟩ := hb
    subst h1
    subst h2
    rfl
  · simp only [updateBest] at hb
    split at hb
    · simp only [Option.some.injEq, Prod.mk.injEq] at hb
      obtain ⟨h1, h2⟩ := hb
      subst h1
      subst h2
      rfl
    · simp only [Option.some.injEq, Prod.mk.injEq] at hb
      obtain ⟨h1, h2⟩ := hb
      subst h1
      subst h2
      exact ho _ _ rfl

theorem tierGates_ok_scoredKey (cfg : Config) (imgW imgH lastCx lastCy : ℚ)
    (b : Blob) (best relaxed nb nr : Option (Blob × ℚ))
    (hb : scoredKey cfg imgW imgH lastCx lastCy best)
    (hr : scoredKey cfg imgW imgH lastCx lastCy relaxed)
    (hok : tierGates cfg imgW imgH b (score cfg imgW imgH lastCx lastCy b)
        best relaxed = Except.ok (nb, nr)) :
    scoredKey cfg imgW imgH lastCx lastCy nb ∧
      scoredKey cfg imgW imgH lastCx lastCy nr := by
  simp only [tierGates] at hok
  split_ifs at hok <;>
    simp only [Except.ok.injEq, Prod.mk.injEq, reduceCtorEq] at hok
  · obtain ⟨h1, h2⟩ := hok
    subst h1
    subst h2
    exact ⟨hb, hr⟩
  · obtain ⟨h1, h2⟩ := hok
    subst h1
    subst h2
    exact ⟨hb, hr⟩
  · obtain ⟨h1, h2⟩ := hok
    subst h1
    subst h2
    exact ⟨scoredKey_updateBest cfg imgW imgH lastCx lastCy best b hb,
      scoredKey_updateBest cfg imgW imgH lastCx lastCy relaxed b hr⟩
  · obtain ⟨h1, h2⟩ := hok
    subst h1
    subst h2
    exact ⟨hb, scoredKey_updateBest cfg imgW imgH lastCx lastCy relaxed b hr⟩

theorem stepBlob_scoredKey (cfg : Config) (imgW imgH lastCx lastCy : ℚ)
    (t : Tiers) (b : Blob)
    (h1 : scoredKey cfg imgW imgH lastCx lastCy t.best)
    (h2 : scoredKey cfg imgW imgH lastCx lastCy t.relaxed)
    (h3 : scoredKey cfg imgW imgH lastCx lastCy t.fallback) :
    scoredKey cfg imgW imgH lastCx lastCy
        (stepBlob cfg imgW imgH lastCx lastCy t b).best ∧
      scoredKey cfg imgW imgH lastCx lastCy
        (stepBlob cfg imgW imgH lastCx lastCy t b).relaxed ∧
      scoredKey cfg imgW imgH lastCx lastCy
        (stepBlob cfg imgW imgH lastCx lastCy t b).fallback := by
  by_cases hp : passGates13 cfg imgW imgH b
  · rw [stepBlob_of_pass cfg imgW imgH lastCx lastCy t b hp]
    rcases htg : tierGates cfg imgW imgH b
        (score cfg imgW imgH lastCx lastCy b) t.best t.relaxed with e | ⟨nb, nr⟩
    · exact ⟨h1, h2,
        scoredKey_updateBest cfg imgW imgH lastCx lastCy t.fallback b h3⟩
    · obtain ⟨hnb, hnr⟩ :=
        tierGates_ok_scoredKey cfg imgW imgH lastCx lastCy b
          t.best t.relaxed nb nr h1 h2 htg
      exact ⟨hnb, hnr,
        scoredKey_updateBest cfg imgW imgH lastCx lastCy t.fallback b h3⟩
  · rw [stepBlob_of_not_pass cfg imgW imgH lastCx lastCy t b hp]
    exact ⟨h1, h2, h3⟩

theorem foldl_scoredKey (cfg : Config) (imgW imgH lastCx lastCy : ℚ)
    (l : List Blob) (t : Tiers)
    (h1 : scoredKey cfg imgW imgH lastCx lastCy t.best)
    (h2 : scoredKey cfg imgW imgH lastCx lastCy t.relaxed)
    (h3 : scoredKey cfg imgW imgH lastCx lastCy t.fallback) :
    scoredKey cfg imgW imgH lastCx lastCy
        (List.foldl (stepBlob cfg imgW imgH lastCx lastCy) t l).best ∧
      scoredKey cfg imgW imgH lastCx lastCy
        (List.foldl (stepBlob cfg imgW imgH lastCx lastCy) t l).relaxed ∧
      scoredKey cfg imgW imgH lastCx lastCy
        (List.foldl (stepBlob cfg imgW imgH lastCx lastCy) t l).fallback := by
  induction l generalizing t with
  | nil => exact ⟨h1, h2, h3⟩
  | cons c cs ih =>
    obtain ⟨g1, g2, g3⟩ :=
      stepBlob_scoredKey cfg imgW imgH lastCx lastCy t c h1 h2 h3
    exact ih _ g1 g2 g3

theorem evaluate_scoredKey (cfg : Config) (imgW imgH lastCx lastCy : ℚ)
    (blobs : List Blob) :
    scoredKey cfg imgW imgH lastCx lastCy
        (evaluate cfg imgW imgH lastCx lastCy blobs).best ∧
      scoredKey cfg imgW imgH lastCx lastCy
        (evaluate cfg imgW imgH lastCx lastCy blobs).relaxed ∧
      scoredKey cfg imgW imgH lastCx lastCy
        (evaluate cfg imgW imgH lastCx lastCy blobs).fallback :=
  foldl_scoredKey cfg imgW imgH lastCx lastCy blobs ⟨none, none, none⟩
    (scoredKey_none cfg imgW imgH lastCx lastCy)
    (scoredKey_none cfg imgW imgH lastCx lastCy)
    (scoredKey_none cfg imgW imgH lastCx lastCy)

/-! Claim theorems. -/

/-- C1 counterexample: the claim that the stored centroid is updated only on
an accepted or relaxed tier is false. The scenario blob yields a
fallback-tier result (tag 4) with centroid (50, 50), and the main-loop update
then moves the stored centroid from (0, 0) to (50, 50), because the tag 4 is
truthy in `if cx and cy and out_valid`. -/
theorem C1_counterexample :
    find_white_frame_center defaultConfig 240 240 0 0 [blobFallback]
        = ⟨50, 50, 1, tagFallback⟩ ∧
      updateLast ⟨50, 50, 1, tagFallback⟩ (0, 0) = (50, 50) ∧
      ((50 : ℚ), (50 : ℚ)) ≠ ((0 : ℚ), (0 : ℚ)) := by
  refine ⟨?_, ?_, ?_⟩
  · norm_num [find_white_frame_center, evaluate, stepBlob, tierGates, score,
      updateBest, defaultConfig, blobFallback, tagFallback]
  · norm_num [updateLast, tagFallback]
  · simp [Prod.ext_iff]

/-- C1 amended: the stored last centroid is updated to the selected centroid
exactly when the tier tag is nonzero (accepted, relaxed, or fallback) and
both centroid coordinates are nonzero; otherwise it is left unchanged. -/
theorem C1_update_condition (r : DetectionResult) (last : ℚ × ℚ) :
    updateLast r last =
      if r.valid ≠ 0 ∧ r.cx ≠ 0 ∧ r.cy ≠ 0 then (r.cx, r.cy) else last := by
  unfold updateLast
  by_cases hv : r.valid = 0
  · simp [hv]
  · by_cases hx : r.cx = 0
    · simp [hv, hx]
    · by_cases hy : r.cy = 0
      · simp [hv, hx, hy]
      · simp [hv, hx, hy]

/-- C2 counterexample: with edge margin 5 enabled, the blob `blobEdge` passes
the step 1-3 gates, the aspect gate, and the relaxed density gate, its
density is below the strict bound, and its centroid x = 3 lies within the
margin; the claim says it stays eligible for the relaxed tier, but the code
raises out of the whole candidate body, so the relaxed best stays empty and
the frame resolves to the fallback tier. -/
theorem C2_counterexample :
    0 < cfgEdge.edgeMargin ∧
      passGates13 cfgEdge 240 240 blobEdge ∧
      ¬(blobEdge.w / blobEdge.h < cfgEdge.minAspect
        ∨ blobEdge.w / blobEdge.h > cfgEdge.maxAspect) ∧
      ¬(blobEdge.area / (blobEdge.w * blobEdge.h) < cfgEdge.minDensity
        ∨ blobEdge.area / (blobEdge.w * blobEdge.h) > cfgEdge.relaxMaxDensity) ∧
      blobEdge.area / (blobEdge.w * blobEdge.h) ≤ cfgEdge.maxDensity ∧
      blobEdge.cx < cfgEdge.edgeMargin ∧
      (evaluate cfgEdge 240 240 0 0 [blobEdge]).best = none ∧
      (evaluate cfgEdge 240 240 0 0 [blobEdge]).relaxed = none ∧
      find_white_frame_center cfgEdge 240 240 0 0 [blobEdge]
        = ⟨blobEdge.cx, blobEdge.cy, 1, tagFallback⟩ := by
  refine ⟨?_, ?_, ?_, ?_, ?_, ?_, ?_, ?_, ?_⟩
  · norm_num [cfgEdge, defaultConfig]
  · norm_num [passGates13, cfgEdge, defaultConfig, blobEdge]
  · norm_num [cfgEdge, defaultConfig, blobEdge]
  · norm_num [cfgEdge, defaultConfig, blobEdge]
  · norm_num [cfgEdge, defaultConfig, blobEdge]
  · norm_num [cfgEdge, defaultConfig, blobEdge]
  · norm_num [evaluate, stepBlob, tierGates, score, updateBest, cfgEdge,
      defaultConfig, blobEdge]
  · norm_num [evaluate, stepBlob, tierGates, score, updateBest, cfgEdge,
      defaultConfig, blobEdge]
  · norm_num [find_white_frame_center, evaluate, stepBlob, tierGates, score,
      updateBest, cfgEdge, defaultConfig, blobEdge, tagFallback]

/-- C2 amended: with a nonzero edge margin, a candidate that passes the
step 1-3 gates, the aspect gate and the relaxed density gate, has density at
most the strict bound, and whose centroid lies within the margin of any edge,
is excluded from both the strict and the relaxed tier bests (the raised edge
rejection aborts the rest of the candidate body); it remains tracked only as
the running best of the fallback tier. -/
theorem C2_edge_excludes_strict_and_relaxed (cfg : Config)
    (imgW imgH lastCx lastCy : ℚ) (t : Tiers) (b : Blob)
    (hp : passGates13 cfg imgW imgH b)
    (hh : ¬ b.h = 0)
    (hasp : ¬(b.w / b.h < cfg.minAspect ∨ b.w / b.h > cfg.maxAspect))
    (hwh : ¬ b.w * b.h = 0)
    (hden : ¬(b.area / (b.w * b.h) < cfg.minDensity
        ∨ b.area / (b.w * b.h) > cfg.relaxMaxDensity))
    (hstrict : b.area / (b.w * b.h) ≤ cfg.maxDensity)
    (hedge : cfg.edgeMargin ≠ 0 ∧
      (b.cx < cfg.edgeMargin ∨ b.cx > imgW - cfg.edgeMargin
        ∨ b.cy < cfg.edgeMargin ∨ b.cy > imgH - cfg.edgeMargin)) :
    stepBlob cfg imgW imgH lastCx lastCy t b
      = ⟨t.best, t.relaxed,
          updateBest t.fallback b (score cfg imgW imgH lastCx lastCy b)⟩ := by
  rw [stepBlob_of_pass cfg imgW imgH lastCx lastCy t b hp]
  have hg : tierGates cfg imgW imgH b (score cfg imgW imgH lastCx lastCy b)
      t.best t.relaxed = Except.error () := by
    simp only [tierGates]
    rw [if_neg hh, if_neg hasp, if_neg hwh, if_neg hden, if_pos hstrict,
      if_pos hedge]
  rw [hg]

/-- C2 witness: the amended theorem applied to `blobEdge` under `cfgEdge`
starting from empty tier bests. -/
theorem C2_witness :
    stepBlob cfgEdge 240 240 0 0 ⟨none, none, none⟩ blobEdge
      = ⟨none, none,
          updateBest none blobEdge (score cfgEdge 240 240 0 0 blobEdge)⟩ :=
  C2_edge_excludes_strict_and_relaxed cfgEdge 240 240 0 0 ⟨none, none, none⟩
    blobEdge
    (by norm_num [passGates13, cfgEdge, defaultConfig, blobEdge])
    (by norm_num [blobEdge])
    (by norm_num [cfgEdge, defaultConfig, blobEdge])
    (by norm_num [blobEdge])
    (by norm_num [cfgEdge, defaultConfig, blobEdge])
    (by norm_num [cfgEdge, defaultConfig, blobEdge])
    ⟨by norm_num [cfgEdge, defaultConfig],
      Or.inl (by norm_num [cfgEdge, defaultConfig, blobEdge])⟩

/-- C3: any blob of the frame that passes the step 1-3 gates leaves the
fallback best non-empty after evaluation, and the selector then never
returns the none tier for that frame. -/
theorem C3_fallback_nonempty (cfg : Config) (imgW imgH lastCx lastCy : ℚ)
    (blobs : List Blob) (b : Blob) (hmem : b ∈ blobs)
    (hp : passGates13 cfg imgW imgH b) :
    (evaluate cfg imgW imgH lastCx lastCy blobs).fallback.isSome = true ∧
      (find_white_frame_center cfg imgW imgH lastCx lastCy blobs).valid
        ≠ tagNone := by
  have hfb := foldl_mem_fallback_isSome cfg imgW imgH lastCx lastCy blobs
    ⟨none, none, none⟩ b hmem hp
  refine ⟨hfb, ?_⟩
  have he : blobs.isEmpty = false := by
    rcases blobs with _ | ⟨c, cs⟩
    · cases hmem
    · rfl
  unfold find_white_frame_center
  simp only [he, Bool.false_eq_true, if_false]
  rcases hb : (evaluate cfg imgW imgH lastCx lastCy blobs).best with _ | ⟨bb, sb⟩
  · rcases hr : (evaluate cfg imgW imgH lastCx lastCy blobs).relaxed
        with _ | ⟨br, sr⟩
    · rcases hf : (evaluate cfg imgW imgH lastCx lastCy blobs).fallback
          with _ | ⟨bf, sf⟩
      · have hfb2 : (evaluate cfg imgW imgH lastCx lastCy blobs).fallback.isSome
            = true := hfb
        rw [hf] at hfb2
        simp at hfb2
      · simp [hb, hr, hf, tagFallback, tagNone]
    · simp [hb, hr, tagRelaxed, tagNone]
  · simp [hb, tagAccepted, tagNone]

/-- C3 witness: the scenario blob passes the step 1-3 gates, so the fallback
best is non-empty and the frame resolves to a nonzero tier tag. -/
theorem C3_witness :
    (evaluate defaultConfig 240 240 0 0 [blobFallback]).fallback.isSome = true ∧
      (find_white_frame_center defaultConfig 240 240 0 0 [blobFallback]).valid
        ≠ tagNone :=
  C3_fallback_nonempty defaultConfig 240 240 0 0 [blobFallback] blobFallback
    (List.mem_cons_self blobFallback [])
    (by norm_num [passGates13, defaultConfig, blobFallback])

/-- C4: the selector resolves strict → relaxed → fallback → none, returning
the centroid and tag of the first non-empty tier best together with the
total blob count; in particular a non-empty strict best always yields the
accepted tag. -/
theorem C4_resolution_order (cfg : Config) (imgW imgH lastCx lastCy : ℚ)
    (blobs : List Blob) (hne : blobs ≠ []) :
    (find_white_frame_center cfg imgW imgH lastCx lastCy blobs).blobCnt
        = blobs.length ∧
      (∀ b s, (evaluate cfg imgW imgH lastCx lastCy blobs).best = some (b, s) →
        find_white_frame_center cfg imgW imgH lastCx lastCy blobs
          = ⟨b.cx, b.cy, blobs.length, tagAccepted⟩) ∧
      ((evaluate cfg imgW imgH lastCx lastCy blobs).best = none →
        ∀ b s,
          (evaluate cfg imgW imgH lastCx lastCy blobs).relaxed = some (b, s) →
          find_white_frame_center cfg imgW imgH lastCx lastCy blobs
            = ⟨b.cx, b.cy, blobs.length, tagRelaxed⟩) ∧
      ((evaluate cfg imgW imgH lastCx lastCy blobs).best = none →
        (evaluate cfg imgW imgH lastCx lastCy blobs).relaxed = none →
        ∀ b s,
          (evaluate cfg imgW imgH lastCx lastCy blobs).fallback = some (b, s) →
          find_white_frame_center cfg imgW imgH lastCx lastCy blobs
            = ⟨b.cx, b.cy, blobs.length, tagFallback⟩) ∧
      ((evaluate cfg imgW imgH lastCx lastCy blobs).best = none →
        (evaluate cfg imgW imgH lastCx lastCy blobs).relaxed = none →
        (evaluate cfg imgW imgH lastCx lastCy blobs).fallback = none →
        find_white_frame_center cfg imgW imgH lastCx lastCy blobs
          = ⟨0, 0, blobs.length, tagNone⟩) ∧
      ((evaluate cfg imgW imgH lastCx lastCy blobs).best.isSome = true →
        (find_white_frame_center cfg imgW imgH lastCx lastCy blobs).valid
          = tagAccepted) := by
  have he : blobs.isEmpty = false := by
    rcases blobs with _ | ⟨c, cs⟩
    · exact absurd rfl hne
    · rfl
  refine ⟨?_, ?_, ?_, ?_, ?_, ?_⟩
  · unfold find_white_frame_center
    simp only [he, Bool.false_eq_true, if_false]
    rcases hb : (evaluate cfg imgW imgH lastCx lastCy blobs).best
        with _ | ⟨bb, sb⟩
    · rcases hr : (evaluate cfg imgW imgH lastCx lastCy blobs).relaxed
          with _ | ⟨br, sr⟩
      · rcases hf : (evaluate cfg imgW imgH lastCx lastCy blobs).fallback
            with _ | ⟨bf, sf⟩
        · simp [hb, hr, hf]
        · simp [hb, hr, hf]
      · simp [hb, hr]
    · simp [hb]
  · intro b s hb
    unfold find_white_frame_center
    simp [he, hb]
  · intro hb b s hr
    unfold find_white_frame_center
    simp [he, hb, hr]
  · intro hb hr b s hf
    unfold find_white_frame_center
    simp [he, hb, hr, hf]
  · intro hb hr hf
    unfold find_white_frame_center
    simp [he, hb, hr, hf]
  · intro hsome
    obtain ⟨x, hx⟩ := Option.isSome_iff_exists.mp hsome
    rcases x with ⟨bb, sb⟩
    unfold find_white_frame_center
    simp [he, hx]

/-- C4 witness: the resolution-order theorem applied to the one-blob
scenario frame. -/
theorem C4_witness :
    (find_white_frame_center defaultConfig 240 240 0 0 [blobFallback]).blobCnt
      = [blobFallback].length :=
  (C4_resolution_order defaultConfig 240 240 0 0 [blobFallback]
    (by simp)).1

/-- C5: the score of every candidate equals area minus the center-distance
penalty, additionally minus the track-distance penalty exactly when the
prior centroid is nonzero; and this one score function is the ranking key
stored with the strict, relaxed, and fallback tier bests alike. -/
theorem C5_single_score_key (cfg : Config) (imgW imgH lastCx lastCy : ℚ)
    (b : Blob) (blobs : List Blob) :
    (score cfg imgW imgH lastCx lastCy b
        = b.area
          - cfg.centerWeight * ((b.cx - imgW / 2) * (b.cx - imgW / 2)
              + (b.cy - imgH / 2) * (b.cy - imgH / 2))
          - (if lastCx ≠ 0 ∨ lastCy ≠ 0 then
              cfg.trackWeight * ((b.cx - lastCx) * (b.cx - lastCx)
                + (b.cy - lastCy) * (b.cy - lastCy))
            else 0)) ∧
      (∀ bb s,
        (evaluate cfg imgW imgH lastCx lastCy blobs).best = some (bb, s) →
          s = score cfg imgW imgH lastCx lastCy bb) ∧
      (∀ bb s,
        (evaluate cfg imgW imgH lastCx lastCy blobs).relaxed = some (bb, s) →
          s = score cfg imgW imgH lastCx lastCy bb) ∧
      (∀ bb s,
        (evaluate cfg imgW imgH lastCx lastCy blobs).fallback = some (bb, s) →
          s = score cfg imgW imgH lastCx lastCy bb) := by
  obtain ⟨k1, k2, k3⟩ := evaluate_scoredKey cfg imgW imgH lastCx lastCy blobs
  refine ⟨?_, k1, k2, k3⟩
  unfold score
  by_cases hl : lastCx ≠ 0 ∨ lastCy ≠ 0
  · simp only [if_pos hl]
  · simp only [if_neg hl, sub_zero]

/-- C5 witness: the formula at the scenario blob with no prior centroid, and
the stored fallback score of the one-blob frame equals the score function at
its blob. -/
theorem C5_witness :
    (score defaultConfig 240 240 0 0 blobFallback
        = blobFallback.area
          - defaultConfig.centerWeight
            * ((blobFallback.cx - 240 / 2) * (blobFallback.cx - 240 / 2)
              + (blobFallback.cy - 240 / 2) * (blobFallback.cy - 240 / 2))
          - (if (0 : ℚ) ≠ 0 ∨ (0 : ℚ) ≠ 0 then
              defaultConfig.trackWeight
                * ((blobFallback.cx - 0) * (blobFallback.cx - 0)
                  + (blobFallback.cy - 0) * (blobFallback.cy - 0))
            else 0)) ∧
      (-3420 : ℚ) = score defaultConfig 240 240 0 0 blobFallback := by
  refine ⟨(C5_single_score_key defaultConfig 240 240 0 0 blobFallback
    [blobFallback]).1, ?_⟩
  exact (C5_single_score_key defaultConfig 240 240 0 0 blobFallback
    [blobFallback]).2.2.2 blobFallback (-3420)
    (by norm_num [evaluate, stepBlob, tierGates, score, updateBest,
      defaultConfig, blobFallback])

/-- C6: with a positive track weight and a nonzero prior centroid, of two
candidates with equal area and equal squared center distance, the one
strictly nearer the prior centroid scores strictly higher. -/
theorem C6_continuity_bias (cfg : Config) (imgW imgH lastCx lastCy : ℚ)
    (bA bB : Blob)
    (harea : bA.area = bB.area)
    (hcenter :
      (bA.cx - imgW / 2) * (bA.cx - imgW / 2)
          + (bA.cy - imgH / 2) * (bA.cy - imgH / 2)
        = (bB.cx - imgW / 2) * (bB.cx - imgW / 2)
          + (bB.cy - imgH / 2) * (bB.cy - imgH / 2))
    (htw : 0 < cfg.trackWeight)
    (hlast : lastCx ≠ 0 ∨ lastCy ≠ 0)
    (hnear :
      (bB.cx - lastCx) * (bB.cx - lastCx) + (bB.cy - lastCy) * (bB.cy - lastCy)
        < (bA.cx - lastCx) * (bA.cx - lastCx)
          + (bA.cy - lastCy) * (bA.cy - lastCy)) :
    score cfg imgW imgH lastCx lastCy bA < score cfg imgW imgH lastCx lastCy bB := by
  simp only [score, if_pos hlast]
  have hmul := mul_lt_mul_of_pos_left hnear htw
  rw [harea, hcenter]
  linarith

/-- C6 witness: two blobs of equal area at mirrored positions around the
frame center; the one sitting exactly on the prior centroid wins. -/
theorem C6_witness :
    score defaultConfig 240 240 140 100 ⟨500, 30, 15, 100, 140⟩
      < score defaultConfig 240 240 140 100 ⟨500, 30, 15, 140, 100⟩ :=
  C6_continuity_bias defaultConfig 240 240 140 100
    ⟨500, 30, 15, 100, 140⟩ ⟨500, 30, 15, 140, 100⟩
    (by norm_num) (by norm_num) (by norm_num [defaultConfig])
    (Or.inl (by norm_num)) (by norm_num)

/-- C7: when no blob passes the step 1-3 gates the selector returns centroid
(0, 0) and the none tag, and on the empty blob list it returns
(0, 0) with blob count 0 and the none tag. -/
theorem C7_no_survivor_returns_none (cfg : Config)
    (imgW imgH lastCx lastCy : ℚ) (blobs : List Blob)
    (hnone : ∀ b ∈ blobs, ¬ passGates13 cfg imgW imgH b) :
    (find_white_frame_center cfg imgW imgH lastCx lastCy blobs).cx = 0 ∧
      (find_white_frame_center cfg imgW imgH lastCx lastCy blobs).cy = 0 ∧
      (find_white_frame_center cfg imgW imgH lastCx lastCy blobs).valid
        = tagNone ∧
      find_white_frame_center cfg imgW imgH lastCx lastCy []
        = ⟨0, 0, 0, tagNone⟩ := by
  have hfind : find_white_frame_center cfg imgW imgH lastCx lastCy blobs
      = ⟨0, 0, blobs.length, tagNone⟩ := by
    rcases blobs with _ | ⟨c, cs⟩
    · rfl
    · unfold find_white_frame_center
      rw [evaluate_all_rejected cfg imgW imgH lastCx lastCy _ hnone]
      rfl
  exact ⟨by rw [hfind], by rw [hfind], by rw [hfind], rfl⟩

/-- C7 witness: a single blob failing the step-1 area gate yields the none
result. -/
theorem C7_witness :
    (find_white_frame_center defaultConfig 240 240 0 0 [blobHuge]).cx = 0 ∧
      (find_white_frame_center defaultConfig 240 240 0 0 [blobHuge]).cy = 0 ∧
      (find_white_frame_center defaultConfig 240 240 0 0 [blobHuge]).valid
        = tagNone ∧
      find_white_frame_center defaultConfig 240 240 0 0 [] = ⟨0, 0, 0, tagNone⟩ :=
  C7_no_survivor_returns_none defaultConfig 240 240 0 0 [blobHuge]
    (by
      intro b hb
      rcases List.mem_singleton.mp hb with rfl
      norm_num [passGates13, defaultConfig, blobHuge])

/-- C8: a write with a held handle either succeeds keeping that handle, or
every transmission attempt ends with the handle absent and a failure flag;
one frame makes at most one reconnect attempt; after a failed open the
handle is absent, and the next frame with a succeeding open reacquires it,
so there is no permanent lockout. The oracles model the environment; all
functions return totally, modelling that no exception escapes. -/
theorem C8_link_resilience :
    (∀ h cx cy, send_coord (some h) cx cy true = (some h, 1)) ∧
      (∀ serial cx cy wOk,
        (send_coord serial cx cy wOk = (serial, 1) ∧ serial.isSome = true)
          ∨ send_coord serial cx cy wOk = (none, 0)) ∧
      (∀ serial cx cy wOk oOk fresh,
        (frameLink serial cx cy wOk oOk fresh).2.2 ≤ 1) ∧
      (∀ cx cy wOk fresh, (frameLink none cx cy wOk false fresh).1 = none) ∧
      (∀ cx cy wOk fresh, (frameLink none cx cy wOk true fresh).1 = some fresh) := by
  refine ⟨?_, ?_, ?_, ?_, ?_⟩
  · intro h cx cy
    rfl
  · intro serial cx cy wOk
    rcases serial with _ | h
    · exact Or.inr rfl
    · cases wOk
      · exact Or.inr rfl
      · exact Or.inl ⟨rfl, rfl⟩
  · intro serial cx cy wOk oOk fresh
    rcases serial with _ | h
    · exact Nat.le_refl 1
    · cases wOk
      · exact Nat.le_refl 1
      · exact Nat.zero_le 1
  · intro cx cy wOk fresh
    rfl
  · intro cx cy wOk fresh
    rfl

/-- C9 counterexample: under a configuration with the minimum height lowered
to 0, the zero-height blob passes the step 1-3 gates, its tier-gate section
faults at the aspect division, and yet it is not excluded from all tier
bests: it stands as the fallback best, because the fallback update precedes
the fault point. -/
theorem C9_counterexample :
    passGates13 cfgDegenerate 240 240 blobDegenerate ∧
      tierGates cfgDegenerate 240 240 blobDegenerate
          (score cfgDegenerate 240 240 0 0 blobDegenerate) none none
        = Except.error () ∧
      (evaluate cfgDegenerate 240 240 0 0 [blobDegenerate]).fallback
        = some (blobDegenerate, score cfgDegenerate 240 240 0 0 blobDegenerate) := by
  refine ⟨?_, ?_, ?_⟩
  · norm_num [passGates13, cfgDegenerate, defaultConfig, blobDegenerate]
  · simp [tierGates, blobDegenerate]
  · norm_num [evaluate, stepBlob, tierGates, updateBest, cfgDegenerate,
      defaultConfig, blobDegenerate]

/-- C9 amended: a per-candidate fault in the tier-gate section is local: the
faulting candidate leaves the strict and relaxed bests unchanged, its
already-made fallback update stands, and the evaluation of the remaining
blobs of the frame continues from that state; no fault propagates out of
the evaluation. -/
theorem C9_fault_is_local (cfg : Config) (imgW imgH lastCx lastCy : ℚ)
    (t : Tiers) (b : Blob) (xs ys : List Blob)
    (hp : passGates13 cfg imgW imgH b)
    (hf : tierGates cfg imgW imgH b (score cfg imgW imgH lastCx lastCy b)
        t.best t.relaxed = Except.error ()) :
    (stepBlob cfg imgW imgH lastCx lastCy t b).best = t.best ∧
      (stepBlob cfg imgW imgH lastCx lastCy t b).relaxed = t.relaxed ∧
      (stepBlob cfg imgW imgH lastCx lastCy t b).fallback
        = updateBest t.fallback b (score cfg imgW imgH lastCx lastCy b) ∧
      evaluate cfg imgW imgH lastCx lastCy (xs ++ b :: ys)
        = List.foldl (stepBlob cfg imgW imgH lastCx lastCy)
            (stepBlob cfg imgW imgH lastCx lastCy
              (List.foldl (stepBlob cfg imgW imgH lastCx lastCy)
                ⟨none, none, none⟩ xs) b) ys := by
  have hstep : stepBlob cfg imgW imgH lastCx lastCy t b
      = ⟨t.best, t.relaxed,
          updateBest t.fallback b (score cfg imgW imgH lastCx lastCy b)⟩ := by
    rw [stepBlob_of_pass cfg imgW imgH lastCx lastCy t b hp, hf]
  refine ⟨by rw [hstep], by rw [hstep], by rw [hstep], ?_⟩
  unfold evaluate
  rw [List.foldl_append, List.foldl_cons]

/-- C9 witness: the amended theorem applied to the degenerate zero-height
blob as the only blob of the frame. -/
theorem C9_witness :
    (stepBlob cfgDegenerate 240 240 0 0 ⟨none, none, none⟩ blobDegenerate).best
        = none ∧
      (stepBlob cfgDegenerate 240 240 0 0 ⟨none, none, none⟩
          blobDegenerate).relaxed = none ∧
      (stepBlob cfgDegenerate 240 240 0 0 ⟨none, none, none⟩
          blobDegenerate).fallback
        = updateBest none blobDegenerate
            (score cfgDegenerate 240 240 0 0 blobDegenerate) ∧
      evaluate cfgDegenerate 240 240 0 0 [blobDegenerate]
        = stepBlob cfgDegenerate 240 240 0 0 ⟨none, none, none⟩ blobDegenerate :=
  C9_fault_is_local cfgDegenerate 240 240 0 0 ⟨none, none, none⟩
    blobDegenerate [] []
    (by norm_num [passGates13, cfgDegenerate, defaultConfig, blobDegenerate])
    (by simp [tierGates, blobDegenerate])

/-- C10: a frame whose selected centroid has a zero x or y coordinate never
updates the stored last centroid, whatever the tier tag, because the update
is gated on the truthiness of both coordinates. -/
theorem C10_zero_coordinate_keeps_last (r : DetectionResult) (last : ℚ × ℚ)
    (h : r.cx = 0 ∨ r.cy = 0) :
    updateLast r last = last := by
  unfold updateLast
  rcases h with h | h <;> by_cases hv : r.valid = 0 <;> simp [hv, h]

/-- C10 witness: an accepted-tier result on the x = 0 image line leaves the
stored centroid untouched. -/
theorem C10_witness :
    updateLast ⟨0, 7, 1, tagAccepted⟩ (3, 4) = (3, 4) :=
  C10_zero_coordinate_keeps_last ⟨0, 7, 1, tagAccepted⟩ (3, 4) (Or.inl rfl)

end Maixcam
